import Mathlib

/-!
Verification of the targeted-long solver
(crates/hyperdrive-math/src/long/targeted.rs).

The solver is embedded shallowly.  Quantities of the source's `FixedPoint`
type are modelled as `Nat` counting units of `1e-18` (the source's fixed
implicit 18-decimal scale).  The fixed-point arithmetic itself lives outside
the visible source tree, so it is modelled from the spec: non-negative
fixed-precision decimals with round-down multiplication/division as the
default operators and explicit round-up variants, where numeric underflow
and division by zero are fatal, surfaced errors (spec section 5: "treated
as a fatal error for that call (surfaced, not silently saturated)").
Subtraction and division are therefore checked operations returning a
`Fault` when undefined, and a fault propagates through every computation to
the solver's result.  Values are unbounded naturals, so the upper overflow
bound of the source's 256-bit representation is outside the model; the
fractional power function is kept opaque (a function field of the state,
since no claim depends on its internals).

The external curve-state collaborator (spot price after a long, opening a
long, solvency, fee primitives, scalar accessors) is likewise modelled from
the spec as opaque data carried by the `State` record, exactly with the
signatures the spec gives: `calculate_open_long` and
`long_amount_derivative` return `Option` (`none` = infeasible),
`calculate_spot_price_after_long` returns a `Result`.

Two kinds of abnormal termination are distinguished in a solver outcome:
`Outcome.panicked` for the `.unwrap()` calls inside the iteration loop and
the final validation pass hitting `none`, and `Outcome.fault` for a fatal
fixed-point arithmetic error anywhere in the call.
-/

namespace Hyperdrive

/-- The fixed-point scale: one unit is `1e-18`, so `fpOne = 1e18` represents `1`. -/
def fpOne : Nat := 10 ^ 18

/-- Modelled from the spec: a fatal fixed-point arithmetic error, surfaced
rather than silently saturated (spec section 5). -/
inductive Fault where
  | underflow
  | divisionByZero
deriving DecidableEq

/-- Modelled from the spec: fixed-precision multiplication, rounding down
(the source's default multiplication operator).  Total: the divisor is the
constant scale. -/
def fpMul (a b : Nat) : Nat := a * b / fpOne

/-- Modelled from the spec: fixed-precision subtraction of non-negative
values; underflow is a fatal, surfaced error. -/
def fpSub (a b : Nat) : Except Fault Nat :=
  if b ≤ a then .ok (a - b) else .error .underflow

/-- Modelled from the spec: fixed-precision division, rounding down (the
source's default division operator); division by zero is a fatal, surfaced
error. -/
def fpDiv (a b : Nat) : Except Fault Nat :=
  if b = 0 then .error .divisionByZero else .ok (a * fpOne / b)

/-- Ceiling division on raw naturals, used by the round-up variants. -/
def natDivUp (a b : Nat) : Nat := (a + b - 1) / b

/-- Modelled from the spec: fixed-precision multiplication, rounding up.
Total: the divisor is the constant scale. -/
def fpMulUp (a b : Nat) : Nat := natDivUp (a * b) fpOne

/-- Modelled from the spec: fixed-precision division, rounding up; division
by zero is a fatal, surfaced error. -/
def fpDivUp (a b : Nat) : Except Fault Nat :=
  if b = 0 then .error .divisionByZero else .ok (natDivUp (a * fpOne) b)

/-- Typed failures of the solver.  In the source all failures are string
errors built with `eyre!`; the four messages produced by this file and the
propagated external failure are distinguished here by constructor. -/
inductive HdError where
  /-- error message "We overshot the zero-crossing." -/
  | overshoot
  /-- error message "Guess in get_targeted_long is insolvent." -/
  | insolvent
  /-- error message "Unable to find an acceptable loss." (carries the final loss) -/
  | excessiveLoss (loss : Nat)
  /-- error message "long_amount_derivative failure." -/
  | longAmountDerivativeFailure
  /-- a failure propagated unchanged from `calculate_spot_price_after_long` -/
  | external (msg : String)
deriving DecidableEq

/-- The result of a numeric subroutine of the solver: a value, a typed
error, or a fatal arithmetic fault (an abnormal termination of the whole
call). -/
inductive Res where
  | ok (value : Nat)
  | err (e : HdError)
  | fault (f : Fault)
deriving DecidableEq

/-- The observable result of one solver invocation: a returned value, a
typed error, a fatal arithmetic fault, or the `.unwrap()` panic on an
infeasible `calculate_open_long`. -/
inductive Outcome where
  | ok (value : Nat)
  | err (e : HdError)
  | fault (f : Fault)
  | panicked
deriving DecidableEq

/-- The immutable curve-state snapshot.  Scalar accessors are data fields;
the external primitives consumed by the solver (spec section 6) are opaque
function fields, modelled from the spec with exactly the spec's signatures.
`initial_vault_share_price` is the source's `mu`, `vault_share_price` its
`c`, `effective_share_reserves` its `ze`. -/
structure State where
  share_reserves : Nat
  bond_reserves : Nat
  effective_share_reserves : Nat
  vault_share_price : Nat
  initial_vault_share_price : Nat
  time_stretch : Nat
  curve_fee : Nat
  governance_lp_fee : Nat
  annualized_position_duration : Nat
  k_down : Nat
  calculate_spot_price : Nat
  calculate_spot_price_after_long : Nat → Option Nat → Except String Nat
  calculate_open_long : Nat → Option Nat
  long_amount_derivative : Nat → Option Nat
  open_long_governance_fee : Nat → Nat
  open_long_curve_fees : Nat → Nat
  solvency_after_long : Nat → Nat → Int → Option Nat
  fpPow : Nat → Nat → Nat

/-- The fixed rate after a long has been opened:
`r(x) = (1 - p(x)) / (p(x) * t)` where `p(x)` is the spot price after the
long and `t` the annualized position duration.  A failure of the underlying
spot-price computation is propagated; the subtraction faults when the price
exceeds one, and the division faults when `p(x) * t` truncates to zero. -/
def State.rate_after_long (s : State) (base_amount : Nat) (bond_amount : Option Nat) :
    Res :=
  match s.calculate_spot_price_after_long base_amount bond_amount with
  | .error msg => .err (.external msg)
  | .ok resulting_price =>
      match fpSub fpOne resulting_price with
      | .error f => .fault f
      | .ok one_minus_price =>
          match fpDiv one_minus_price
              (fpMul resulting_price s.annualized_position_duration) with
          | .error f => .fault f
          | .ok r => .ok r

/-- The derivative of the price after a long, via the auxiliary ratio
`v(x) = a(x) / b(x)` with `p(x) = v(x) ^ t_s`; every subtraction and
division is checked, in the source's evaluation order. -/
def State.price_after_long_derivative (s : State) (base_amount bond_amount : Nat) :
    Res :=
  match fpSub fpOne s.calculate_spot_price with
  | .error f => .fault f
  | .ok one_minus_spot =>
      let gov_fee_derivative :=
        fpMul (fpMul s.governance_lp_fee s.curve_fee) one_minus_spot
      match fpDiv base_amount s.vault_share_price with
      | .error f => .fault f
      | .ok base_over_c =>
          match fpSub (s.effective_share_reserves + base_over_c)
              (s.open_long_governance_fee base_amount) with
          | .error f => .fault f
          | .ok adjusted_shares =>
              let inner_numerator := fpMul s.initial_vault_share_price adjusted_shares
              match fpDiv s.initial_vault_share_price s.vault_share_price with
              | .error f => .fault f
              | .ok mu_over_c =>
                  match fpSub mu_over_c gov_fee_derivative with
                  | .error f => .fault f
                  | .ok inner_numerator_derivative =>
                      match fpSub s.bond_reserves bond_amount with
                      | .error f => .fault f
                      | .ok inner_denominator =>
                          match s.long_amount_derivative base_amount with
                          | none => .err .longAmountDerivativeFailure
                          | some long_amount_derivative =>
                              match fpDiv
                                  (fpMul inner_denominator inner_numerator_derivative
                                    + fpMul inner_numerator long_amount_derivative)
                                  (fpMul inner_denominator inner_denominator) with
                              | .error f => .fault f
                              | .ok inner_derivative =>
                                  match fpDiv inner_denominator inner_numerator with
                                  | .error f => .fault f
                                  | .ok flipped_ratio =>
                                      match fpSub fpOne s.time_stretch with
                                      | .error f => .fault f
                                      | .ok one_minus_ts =>
                                          .ok (fpMul
                                            (fpMul inner_derivative s.time_stretch)
                                            (s.fpPow flipped_ratio one_minus_ts))

/-- The negation of the derivative of the rate after a long:
`-r'(x) = p'(x) / (t * p(x)^2)` (returned negated because the source's
numeric type cannot represent negative values).  The square is computed as
`price * price`, associated as in the source: `(t * price) * price`; the
division faults when that denominator truncates to zero. -/
def State.rate_after_long_derivative_negation (s : State) (base_amount bond_amount : Nat) :
    Res :=
  match s.calculate_spot_price_after_long base_amount (some bond_amount) with
  | .error msg => .err (.external msg)
  | .ok price =>
      match s.price_after_long_derivative base_amount bond_amount with
      | .err e => .err e
      | .fault f => .fault f
      | .ok price_derivative =>
          match fpDiv price_derivative
              (fpMul (fpMul s.annualized_position_duration price) price) with
          | .error f => .fault f
          | .ok r => .ok r

/-- Base and bond trade deltas for moving the pool to the given target
reserve levels: `dx = (z_t - z_e) * c` and `dy = (y_0 - y_t) - fee(dx)`;
each subtraction faults fatally on underflow. -/
def State.trade_deltas_from_reserves (s : State) (share_reserves bond_reserves : Nat) :
    Except Fault (Nat × Nat) :=
  match fpSub share_reserves s.effective_share_reserves with
  | .error f => .error f
  | .ok share_delta =>
      let base_delta := fpMul share_delta s.vault_share_price
      match fpSub s.bond_reserves bond_reserves with
      | .error f => .error f
      | .ok bond_difference =>
          match fpSub bond_difference (s.open_long_curve_fees base_delta) with
          | .error f => .error f
          | .ok bond_delta => .ok (base_delta, bond_delta)

/-- Pool reserve levels that would produce the target rate, ignoring
solvency and exposure (the closed-form one-shot estimate), with every
division and subtraction checked in the source's evaluation order. -/
def State.reserves_given_rate_ignoring_exposure (s : State) (target_rate : Nat) :
    Except Fault (Nat × Nat) :=
  match fpDivUp s.vault_share_price s.initial_vault_share_price with
  | .error f => .error f
  | .ok c_over_mu =>
      match fpDiv fpOne s.time_stretch with
      | .error f => .error f
      | .ok inverse_ts =>
          let scaled_rate :=
            s.fpPow (fpMulUp target_rate s.annualized_position_duration + fpOne)
              inverse_ts
          match fpSub fpOne s.time_stretch with
          | .error f => .error f
          | .ok one_minus_ts =>
              match fpDiv s.k_down (c_over_mu + s.fpPow scaled_rate one_minus_ts) with
              | .error f => .error f
              | .ok inner_base =>
                  match fpDiv fpOne one_minus_ts with
                  | .error f => .error f
                  | .ok inverse_omts =>
                      let inner := s.fpPow inner_base inverse_omts
                      match fpDiv inner s.initial_vault_share_price with
                      | .error f => .error f
                      | .ok target_share_reserves =>
                          .ok (target_share_reserves, fpMul inner scaled_rate)

/-- The one-shot estimate of the targeted long: the trade deltas for the
reserve levels produced by `reserves_given_rate_ignoring_exposure`
(source lines 55-58), faulting when either step faults. -/
def State.targeted_long_estimate (s : State) (target_rate : Nat) :
    Except Fault (Nat × Nat) :=
  match s.reserves_given_rate_ignoring_exposure target_rate with
  | .error f => .error f
  | .ok targets => s.trade_deltas_from_reserves targets.1 targets.2

/-- The validation pass after the iteration loop (source lines 132-162):
a solvency check (whose `calculate_open_long` result is unwrapped, hence
`panicked` on `none`), then a rate recomputation with the overshoot guard
and the excessive-loss check.  The loss subtraction is guarded by the
overshoot check, so it cannot underflow and is written as plain natural
subtraction. -/
def State.targeted_long_final (s : State) (target_rate : Nat) (checkpoint_exposure : Int)
    (allowable_error : Nat) (possible_target_base_delta : Nat) : Outcome :=
  match s.calculate_open_long possible_target_base_delta with
  | none => .panicked
  | some bond =>
      if (s.solvency_after_long possible_target_base_delta bond checkpoint_exposure).isNone then
        .err .insolvent
      else
        match s.calculate_open_long possible_target_base_delta with
        | none => .panicked
        | some possible_target_bond_delta =>
            match s.rate_after_long possible_target_base_delta
                (some possible_target_bond_delta) with
            | .err e => .err e
            | .fault f => .fault f
            | .ok resulting_rate =>
                if target_rate > resulting_rate then .err .overshoot
                else
                  let loss := resulting_rate - target_rate
                  if loss ≥ allowable_error then .err (.excessiveLoss loss)
                  else .ok possible_target_base_delta

/-- The Newton iteration loop (source lines 84-130), with the remaining
iteration budget as fuel; exhausted fuel falls through to
`targeted_long_final`.  Each iteration unwraps `calculate_open_long`
(`panicked` on `none`), recomputes the rate, guards against overshoot,
checks solvency-and-error convergence, and otherwise performs the Newton
update `x + loss / (-l')`, whose division faults fatally when the negated
derivative is zero. -/
def State.targeted_long_loop (s : State) (target_rate : Nat) (checkpoint_exposure : Int)
    (allowable_error : Nat) : Nat → Nat → Outcome
  | 0, possible_target_base_delta =>
      s.targeted_long_final target_rate checkpoint_exposure allowable_error
        possible_target_base_delta
  | n + 1, possible_target_base_delta =>
      match s.calculate_open_long possible_target_base_delta with
      | none => .panicked
      | some possible_target_bond_delta =>
          match s.rate_after_long possible_target_base_delta
              (some possible_target_bond_delta) with
          | .err e => .err e
          | .fault f => .fault f
          | .ok resulting_rate =>
              if target_rate > resulting_rate then .err .overshoot
              else
                let loss := resulting_rate - target_rate
                if (s.solvency_after_long possible_target_base_delta
                      possible_target_bond_delta checkpoint_exposure).isSome
                    ∧ loss < allowable_error then
                  .ok possible_target_base_delta
                else
                  match s.rate_after_long_derivative_negation possible_target_base_delta
                      possible_target_bond_delta with
                  | .err e => .err e
                  | .fault f => .fault f
                  | .ok negative_loss_derivative =>
                      match fpDiv loss negative_loss_derivative with
                      | .error f => .fault f
                      | .ok newton_step =>
                          State.targeted_long_loop s target_rate checkpoint_exposure
                            allowable_error n
                            (possible_target_base_delta + newton_step)

/-- The targeted-long solver (source lines 40-164): one-shot estimate,
overshoot guard, solvent-and-within-error shortcut, then the Newton loop
with fuel `maybe_max_iterations` (default 7) and error threshold
`maybe_allowable_error` (default `1e14`, i.e. `1e-4` at the 18-decimal
scale).  The guarded rate-error subtraction is plain natural subtraction. -/
def State.calculate_targeted_long (s : State) (target_rate : Nat) (checkpoint_exposure : Int)
    (maybe_max_iterations : Option Nat) (maybe_allowable_error : Option Nat) : Outcome :=
  let allowable_error := maybe_allowable_error.getD (10 ^ 14)
  match s.targeted_long_estimate target_rate with
  | .error f => .fault f
  | .ok target_deltas =>
      match s.rate_after_long target_deltas.1 (some target_deltas.2) with
      | .err e => .err e
      | .fault f => .fault f
      | .ok resulting_rate =>
          if target_rate > resulting_rate then .err .overshoot
          else
            let rate_error := resulting_rate - target_rate
            if (s.solvency_after_long target_deltas.1 target_deltas.2
                  checkpoint_exposure).isSome
                ∧ rate_error < allowable_error then
              .ok target_deltas.1
            else
              s.targeted_long_loop target_rate checkpoint_exposure allowable_error
                (maybe_max_iterations.getD 7) target_deltas.1

/-- The solver with direct (non-optional) convergence parameters; used to
state which defaults the optional parameters of
`calculate_targeted_long` resolve to. -/
def State.calculate_targeted_long_explicit (s : State) (target_rate : Nat)
    (checkpoint_exposure : Int) (max_iterations allowable_error : Nat) : Outcome :=
  match s.targeted_long_estimate target_rate with
  | .error f => .fault f
  | .ok target_deltas =>
      match s.rate_after_long target_deltas.1 (some target_deltas.2) with
      | .err e => .err e
      | .fault f => .fault f
      | .ok resulting_rate =>
          if target_rate > resulting_rate then .err .overshoot
          else
            let rate_error := resulting_rate - target_rate
            if (s.solvency_after_long target_deltas.1 target_deltas.2
                  checkpoint_exposure).isSome
                ∧ rate_error < allowable_error then
              .ok target_deltas.1
            else
              s.targeted_long_loop target_rate checkpoint_exposure allowable_error
                max_iterations target_deltas.1

/-- The budget-constrained entry point (source lines 14-37): on success the
solved amount is clamped to the budget, and every failure — a typed error
or an abnormal termination — propagates unchanged. -/
def State.calculate_targeted_long_with_budget (s : State) (budget target_rate : Nat)
    (checkpoint_exposure : Int) (maybe_max_iterations : Option Nat)
    (maybe_allowable_error : Option Nat) : Outcome :=
  match s.calculate_targeted_long target_rate checkpoint_exposure maybe_max_iterations
      maybe_allowable_error with
  | .ok long_amount => .ok (min long_amount budget)
  | .err e => .err e
  | .fault f => .fault f
  | .panicked => .panicked

/-- Instrumented variant of `targeted_long_final` that also reports the
rates-after-trade it evaluated (zero or one; a faulting rate computation
produces no rate value). -/
def State.targeted_long_final_trace (s : State) (target_rate : Nat)
    (checkpoint_exposure : Int) (allowable_error : Nat)
    (possible_target_base_delta : Nat) : Outcome × List Nat :=
  match s.calculate_open_long possible_target_base_delta with
  | none => (.panicked, [])
  | some bond =>
      if (s.solvency_after_long possible_target_base_delta bond checkpoint_exposure).isNone then
        (.err .insolvent, [])
      else
        match s.calculate_open_long possible_target_base_delta with
        | none => (.panicked, [])
        | some possible_target_bond_delta =>
            match s.rate_after_long possible_target_base_delta
                (some possible_target_bond_delta) with
            | .err e => (.err e, [])
            | .fault f => (.fault f, [])
            | .ok resulting_rate =>
                if target_rate > resulting_rate then (.err .overshoot, [resulting_rate])
                else
                  let loss := resulting_rate - target_rate
                  if loss ≥ allowable_error then
                    (.err (.excessiveLoss loss), [resulting_rate])
                  else (.ok possible_target_base_delta, [resulting_rate])

/-- Instrumented variant of `targeted_long_loop` that also reports, in
order, every rate-after-trade it evaluated (including the one evaluated by
the final validation pass). -/
def State.targeted_long_loop_trace (s : State) (target_rate : Nat)
    (checkpoint_exposure : Int) (allowable_error : Nat) :
    Nat → Nat → Outcome × List Nat
  | 0, possible_target_base_delta =>
      s.targeted_long_final_trace target_rate checkpoint_exposure allowable_error
        possible_target_base_delta
  | n + 1, possible_target_base_delta =>
      match s.calculate_open_long possible_target_base_delta with
      | none => (.panicked, [])
      | some possible_target_bond_delta =>
          match s.rate_after_long possible_target_base_delta
              (some possible_target_bond_delta) with
          | .err e => (.err e, [])
          | .fault f => (.fault f, [])
          | .ok resulting_rate =>
              if target_rate > resulting_rate then (.err .overshoot, [resulting_rate])
              else
                let loss := resulting_rate - target_rate
                if (s.solvency_after_long possible_target_base_delta
                      possible_target_bond_delta checkpoint_exposure).isSome
                    ∧ loss < allowable_error then
                  (.ok possible_target_base_delta, [resulting_rate])
                else
                  match s.rate_after_long_derivative_negation possible_target_base_delta
                      possible_target_bond_delta with
                  | .err e => (.err e, [resulting_rate])
                  | .fault f => (.fault f, [resulting_rate])
                  | .ok negative_loss_derivative =>
                      match fpDiv loss negative_loss_derivative with
                      | .error f => (.fault f, [resulting_rate])
                      | .ok newton_step =>
                          let rest :=
                            State.targeted_long_loop_trace s target_rate
                              checkpoint_exposure allowable_error n
                              (possible_target_base_delta + newton_step)
                          (rest.1, resulting_rate :: rest.2)

/-- Instrumented variant of `calculate_targeted_long` that also reports, in
order, every rate-after-trade the solver evaluated: the one-shot estimate's
rate, each Newton iterate's rate, and the final validation pass's rate. -/
def State.calculate_targeted_long_trace (s : State) (target_rate : Nat)
    (checkpoint_exposure : Int) (maybe_max_iterations : Option Nat)
    (maybe_allowable_error : Option Nat) : Outcome × List Nat :=
  let allowable_error := maybe_allowable_error.getD (10 ^ 14)
  match s.targeted_long_estimate target_rate with
  | .error f => (.fault f, [])
  | .ok target_deltas =>
      match s.rate_after_long target_deltas.1 (some target_deltas.2) with
      | .err e => (.err e, [])
      | .fault f => (.fault f, [])
      | .ok resulting_rate =>
          if target_rate > resulting_rate then (.err .overshoot, [resulting_rate])
          else
            let rate_error := resulting_rate - target_rate
            if (s.solvency_after_long target_deltas.1 target_deltas.2
                  checkpoint_exposure).isSome
                ∧ rate_error < allowable_error then
              (.ok target_deltas.1, [resulting_rate])
            else
              let rest :=
                s.targeted_long_loop_trace target_rate checkpoint_exposure
                  allowable_error (maybe_max_iterations.getD 7) target_deltas.1
              (rest.1, resulting_rate :: rest.2)

/-- The trade-delta translation exactly as the spec words it, as a total
formula over naturals: base delta is (target share reserves minus current
effective share reserves) times the current vault-share price, bond delta
is (current bond reserves minus target bond reserves) minus the curve fee
charged on that base delta.  The checked translation agrees with it
exactly on the inputs where no subtraction underflows. -/
def trade_deltas_spec (s : State) (share_reserves bond_reserves : Nat) : Nat × Nat :=
  (fpMul (share_reserves - s.effective_share_reserves) s.vault_share_price,
    (s.bond_reserves - bond_reserves)
      - s.open_long_curve_fees
          (fpMul (share_reserves - s.effective_share_reserves) s.vault_share_price))

/-- A concrete state on which the one-shot estimate is defined, solvent and
exact: the spot price after any long is `1`, so the rate after any trade is
`0`, and the solvency check always succeeds.  The time stretch is `1/2` so
that the estimator's divisions are all defined. -/
def okState : State where
  share_reserves := 0
  bond_reserves := 0
  effective_share_reserves := 0
  vault_share_price := fpOne
  initial_vault_share_price := fpOne
  time_stretch := 5 * 10 ^ 17
  curve_fee := 0
  governance_lp_fee := 0
  annualized_position_duration := fpOne
  k_down := 0
  calculate_spot_price := 0
  calculate_spot_price_after_long := fun _ _ => .ok fpOne
  calculate_open_long := fun _ => some 0
  long_amount_derivative := fun _ => some 0
  open_long_governance_fee := fun _ => 0
  open_long_curve_fees := fun _ => 0
  solvency_after_long := fun _ _ _ => some 0
  fpPow := fun _ _ => 0

/-- A concrete state like `okState` but never solvent and with
`calculate_open_long` infeasible everywhere, driving the solver into the
loop's unwrap. -/
def panicState : State where
  share_reserves := 0
  bond_reserves := 0
  effective_share_reserves := 0
  vault_share_price := fpOne
  initial_vault_share_price := fpOne
  time_stretch := 5 * 10 ^ 17
  curve_fee := 0
  governance_lp_fee := 0
  annualized_position_duration := fpOne
  k_down := 0
  calculate_spot_price := 0
  calculate_spot_price_after_long := fun _ _ => .ok fpOne
  calculate_open_long := fun _ => none
  long_amount_derivative := fun _ => some 0
  open_long_governance_fee := fun _ => 0
  open_long_curve_fees := fun _ => 0
  solvency_after_long := fun _ _ _ => none
  fpPow := fun _ _ => 0

/-- A concrete state whose solvency check never succeeds but on which a
Newton iteration is fully defined and non-degenerate: the spot price after
any long is `1/2`, giving rate `1`, price derivative `2` and a nonzero
negated rate derivative `8` at the fixed-point scale. -/
def newtonState : State where
  share_reserves := 0
  bond_reserves := fpOne
  effective_share_reserves := fpOne
  vault_share_price := fpOne
  initial_vault_share_price := fpOne
  time_stretch := fpOne
  curve_fee := 0
  governance_lp_fee := 0
  annualized_position_duration := fpOne
  k_down := 0
  calculate_spot_price := 0
  calculate_spot_price_after_long := fun _ _ => .ok (5 * 10 ^ 17)
  calculate_open_long := fun _ => some 0
  long_amount_derivative := fun _ => some fpOne
  open_long_governance_fee := fun _ => 0
  open_long_curve_fees := fun _ => 0
  solvency_after_long := fun _ _ _ => none
  fpPow := fun _ _ => fpOne

/-- A concrete state like `okState` except that the spot price after any
long is `2`, above one, so the rate computation's subtraction underflows
fatally even though every external primitive is defined. -/
def overpriceState : State where
  share_reserves := 0
  bond_reserves := 0
  effective_share_reserves := 0
  vault_share_price := fpOne
  initial_vault_share_price := fpOne
  time_stretch := 5 * 10 ^ 17
  curve_fee := 0
  governance_lp_fee := 0
  annualized_position_duration := fpOne
  k_down := 0
  calculate_spot_price := 0
  calculate_spot_price_after_long := fun _ _ => .ok (2 * fpOne)
  calculate_open_long := fun _ => some 0
  long_amount_derivative := fun _ => some 0
  open_long_governance_fee := fun _ => 0
  open_long_curve_fees := fun _ => 0
  solvency_after_long := fun _ _ _ => some 0
  fpPow := fun _ _ => 0

/-! Theorems. -/

/-- C9 counterexample: the trade-delta translation is not total — when the
target share reserves are below the current effective share reserves, the
fixed-point subtraction underflows and the call aborts fatally instead of
returning a pair. -/
theorem trade_deltas_underflow :
    newtonState.trade_deltas_from_reserves 0 fpOne = .error .underflow := rfl

/-- C9 (amended): on every pair of target reserve levels for which no
fixed-point subtraction underflows (target share reserves at least the
effective share reserves, target bond reserves at most the current bond
reserves, and the curve fee at most the bond difference), the translation
returns exactly base delta = (target share reserves minus effective share
reserves) times the vault-share price and bond delta = (bond reserves
minus target bond reserves) minus the curve fee on that base delta; it
introduces no error condition of its own beyond the fatal underflow of the
fixed-point subtraction. -/
theorem trade_deltas_from_reserves_correct (s : State) (share_reserves bond_reserves : Nat)
    (h1 : s.effective_share_reserves ≤ share_reserves)
    (h2 : bond_reserves ≤ s.bond_reserves)
    (h3 : s.open_long_curve_fees
        (fpMul (share_reserves - s.effective_share_reserves) s.vault_share_price)
      ≤ s.bond_reserves - bond_reserves) :
    s.trade_deltas_from_reserves share_reserves bond_reserves =
      .ok (trade_deltas_spec s share_reserves bond_reserves) := by
  unfold State.trade_deltas_from_reserves fpSub trade_deltas_spec
  simp [h1, h2, h3]

/-- C9 witness: on `okState` with target reserves `(0, 0)` no subtraction
underflows and the translation returns the spec formula's pair. -/
theorem trade_deltas_from_reserves_correct_witness :
    okState.trade_deltas_from_reserves 0 0 = .ok (trade_deltas_spec okState 0 0) :=
  trade_deltas_from_reserves_correct okState 0 0 (by decide) (by decide) (by decide)

/-- C10: omitted optional parameters resolve to an allowable error of
`1e14` (that is `1e-4` at the 18-decimal fixed-point scale) and an
iteration cap of 7, and caller-supplied values override these defaults. -/
theorem targeted_long_default_parameters (s : State) (target_rate : Nat)
    (checkpoint_exposure : Int) :
    s.calculate_targeted_long target_rate checkpoint_exposure none none =
        s.calculate_targeted_long_explicit target_rate checkpoint_exposure 7 (10 ^ 14) ∧
      ∀ max_iterations allowable_error,
        s.calculate_targeted_long target_rate checkpoint_exposure (some max_iterations)
            (some allowable_error) =
          s.calculate_targeted_long_explicit target_rate checkpoint_exposure max_iterations
            allowable_error :=
  ⟨rfl, fun _ _ => rfl⟩

/-- C8 counterexample: the rate evaluation can terminate abnormally even
though the underlying spot-price computation succeeds — on a spot price of
`2` (above one) the fixed-point subtraction `1 - price` underflows fatally,
so the function neither returns the rate formula nor propagates a
spot-price failure. -/
theorem rate_after_long_fault :
    overpriceState.calculate_spot_price_after_long 0 none = .ok (2 * fpOne) ∧
      overpriceState.rate_after_long 0 none = .fault .underflow :=
  ⟨rfl, rfl⟩

/-- C8 (amended): when the spot-price-after-trade computation succeeds with
price `p`, the rate evaluation returns `(1 - p) / (p * duration)` whenever
`p` is at most one and `p * duration` does not truncate to zero; it aborts
with a fatal underflow when `p` exceeds one and with a fatal division by
zero when `p * duration` truncates to zero; and when the spot-price
computation fails, that failure is propagated unchanged. -/
theorem rate_after_long_correct (s : State) (base_amount : Nat) (bond_amount : Option Nat) :
    (∀ p, s.calculate_spot_price_after_long base_amount bond_amount = .ok p →
        (p ≤ fpOne → fpMul p s.annualized_position_duration ≠ 0 →
          s.rate_after_long base_amount bond_amount =
            .ok ((fpOne - p) * fpOne / fpMul p s.annualized_position_duration)) ∧
        (fpOne < p →
          s.rate_after_long base_amount bond_amount = .fault .underflow) ∧
        (p ≤ fpOne → fpMul p s.annualized_position_duration = 0 →
          s.rate_after_long base_amount bond_amount = .fault .divisionByZero)) ∧
      (∀ msg, s.calculate_spot_price_after_long base_amount bond_amount = .error msg →
        s.rate_after_long base_amount bond_amount = .err (.external msg)) := by
  constructor
  · intro p hp
    refine ⟨?_, ?_, ?_⟩
    · intro hple hne
      unfold State.rate_after_long fpSub fpDiv
      simp only [hp]
      rw [if_pos hple]
      dsimp only
      rw [if_neg hne]
    · intro hlt
      unfold State.rate_after_long fpSub
      simp only [hp]
      rw [if_neg (by omega)]
    · intro hple h0
      unfold State.rate_after_long fpSub fpDiv
      simp only [hp]
      rw [if_pos hple]
      dsimp only
      rw [if_pos h0]
  · intro msg hmsg
    simp [State.rate_after_long, hmsg]

/-- C8 witness: on `okState` the spot price after any long is `1`, at most
one, with nonzero `price * duration`, so the rate after a long of `3` is
the formula's value `0`. -/
theorem rate_after_long_correct_witness :
    okState.rate_after_long 3 none =
      .ok ((fpOne - fpOne) * fpOne / fpMul fpOne okState.annualized_position_duration) :=
  ((rate_after_long_correct okState 3 none).1 fpOne rfl).1 (by decide) (by decide)

/-- C3: the budget-constrained entry point clamps a successful solve to the
budget with `min` and propagates every failure of the unconstrained solve
unchanged. -/
theorem targeted_long_with_budget_clamp (s : State) (budget target_rate : Nat)
    (checkpoint_exposure : Int) (maybe_max_iterations maybe_allowable_error : Option Nat) :
    (∀ v, s.calculate_targeted_long target_rate checkpoint_exposure maybe_max_iterations
          maybe_allowable_error = .ok v →
        s.calculate_targeted_long_with_budget budget target_rate checkpoint_exposure
            maybe_max_iterations maybe_allowable_error = .ok (min v budget)) ∧
      (∀ e, s.calculate_targeted_long target_rate checkpoint_exposure maybe_max_iterations
          maybe_allowable_error = .err e →
        s.calculate_targeted_long_with_budget budget target_rate checkpoint_exposure
            maybe_max_iterations maybe_allowable_error = .err e) := by
  constructor
  · intro v hv
    simp [State.calculate_targeted_long_with_budget, hv]
  · intro e he
    simp [State.calculate_targeted_long_with_budget, he]

/-- C3 witness: on `okState` the unconstrained solve returns `0`, so the
budgeted entry point with budget `5` returns `min 0 5`. -/
theorem targeted_long_with_budget_clamp_witness :
    okState.calculate_targeted_long_with_budget 5 0 0 none none = .ok (min 0 5) :=
  (targeted_long_with_budget_clamp okState 5 0 0 none none).1 0 (by decide)

/-- Helper: a value returned by the final validation pass passed the
solvency check with the bond amount produced by `calculate_open_long`. -/
theorem final_ok_solvent (s : State) (target_rate : Nat) (checkpoint_exposure : Int)
    (allowable_error x v : Nat)
    (h : s.targeted_long_final target_rate checkpoint_exposure allowable_error x = .ok v) :
    ∃ bond, s.calculate_open_long v = some bond ∧
      (s.solvency_after_long v bond checkpoint_exposure).isSome = true := by
  unfold State.targeted_long_final at h
  cases hol : s.calculate_open_long x with
  | none => rw [hol] at h; exact absurd h (by simp)
  | some bond =>
    rw [hol] at h
    simp only at h
    cases hsv : s.solvency_after_long x bond checkpoint_exposure with
    | none => rw [hsv] at h; simp at h
    | some sol =>
      rw [hsv] at h
      simp only [Option.isNone_some, Bool.false_eq_true, if_false] at h
      cases hr : s.rate_after_long x (some bond) with
      | err e => rw [hr] at h; exact absurd h (by simp)
      | fault f => rw [hr] at h; exact absurd h (by simp)
      | ok rr =>
        rw [hr] at h
        simp only at h
        split at h
        · exact absurd h (by simp)
        · split at h
          · exact absurd h (by simp)
          · cases h
            exact ⟨bond, hol, by rw [hsv]; rfl⟩

/-- Helper: a value returned by the Newton loop passed the solvency check
with the bond amount produced by `calculate_open_long`. -/
theorem loop_ok_solvent (s : State) (target_rate : Nat) (checkpoint_exposure : Int)
    (allowable_error : Nat) :
    ∀ n x v,
      s.targeted_long_loop target_rate checkpoint_exposure allowable_error n x = .ok v →
      ∃ bond, s.calculate_open_long v = some bond ∧
        (s.solvency_after_long v bond checkpoint_exposure).isSome = true := by
  intro n
  induction n with
  | zero =>
    intro x v h
    exact final_ok_solvent s target_rate checkpoint_exposure allowable_error x v h
  | succ n ih =>
    intro x v h
    unfold State.targeted_long_loop at h
    cases hol : s.calculate_open_long x with
    | none => rw [hol] at h; exact absurd h (by simp)
    | some bond =>
      rw [hol] at h
      simp only at h
      cases hr : s.rate_after_long x (some bond) with
      | err e => rw [hr] at h; exact absurd h (by simp)
      | fault f => rw [hr] at h; exact absurd h (by simp)
      | ok rr =>
        rw [hr] at h
        simp only at h
        split at h
        · exact absurd h (by simp)
        · split at h
          · rename_i hcond
            cases h
            exact ⟨bond, hol, hcond.1⟩
          · split at h
            · exact absurd h (by simp)
            · exact absurd h (by simp)
            · split at h
              · exact absurd h (by simp)
              · exact ih _ _ h

/-- C1: whenever the solver returns `ok base_amount`, the solvency check on
that base amount, its corresponding bond amount (the bond amount the solver
paired with it: the one-shot estimate's bond delta on the shortcut path,
the `calculate_open_long` output otherwise), and the given checkpoint
exposure is defined; an `ok` result never corresponds to a trade whose
solvency check is undefined. -/
theorem targeted_long_ok_solvent (s : State) (target_rate : Nat) (checkpoint_exposure : Int)
    (maybe_max_iterations maybe_allowable_error : Option Nat) (v : Nat)
    (h : s.calculate_targeted_long target_rate checkpoint_exposure maybe_max_iterations
      maybe_allowable_error = .ok v) :
    ∃ bond,
      (s.calculate_open_long v = some bond ∨
        ∃ target_deltas, s.targeted_long_estimate target_rate = .ok target_deltas ∧
          v = target_deltas.1 ∧ bond = target_deltas.2) ∧
      (s.solvency_after_long v bond checkpoint_exposure).isSome = true := by
  unfold State.calculate_targeted_long at h
  simp only at h
  cases hest : s.targeted_long_estimate target_rate with
  | error f => rw [hest] at h; exact absurd h (by simp)
  | ok target_deltas =>
    rw [hest] at h
    simp only at h
    cases hr : s.rate_after_long target_deltas.1 (some target_deltas.2) with
    | err e => rw [hr] at h; exact absurd h (by simp)
    | fault f => rw [hr] at h; exact absurd h (by simp)
    | ok rr =>
      rw [hr] at h
      simp only at h
      split at h
      · exact absurd h (by simp)
      · split at h
        · rename_i hcond
          cases h
          exact ⟨target_deltas.2, Or.inr ⟨target_deltas, rfl, rfl, rfl⟩, hcond.1⟩
        · obtain ⟨bond, hb, hs⟩ :=
            loop_ok_solvent s target_rate checkpoint_exposure
              (maybe_allowable_error.getD (10 ^ 14)) (maybe_max_iterations.getD 7)
              target_deltas.1 v h
          exact ⟨bond, Or.inl hb, hs⟩

/-- C1 witness: on `okState` the solver returns `ok 0` via the shortcut,
and the solvency check on that trade is defined. -/
theorem targeted_long_ok_solvent_witness :
    ∃ bond,
      (okState.calculate_open_long 0 = some bond ∨
        ∃ target_deltas, okState.targeted_long_estimate 0 = .ok target_deltas ∧
          0 = target_deltas.1 ∧ bond = target_deltas.2) ∧
      (okState.solvency_after_long 0 bond 0).isSome = true :=
  targeted_long_ok_solvent okState 0 0 none none 0 (by decide)

/-- C4 counterexample: on `panicState` (whose external `calculate_open_long`
is infeasible everywhere and whose solvency check always fails, both shapes
the spec's interface allows), the solver reaches the unwrap inside the
iteration loop and aborts instead of returning an `ok` or `err` value. -/
theorem targeted_long_unwrap_panics :
    panicState.calculate_targeted_long 0 0 none none = .panicked := by decide

/-- Supporting fact: even with `calculate_open_long` defined everywhere the
solver can still terminate abnormally — on `overpriceState` (spot price
`2`, above one) the call aborts with a fatal arithmetic underflow. -/
theorem targeted_long_arithmetic_fault :
    (∀ a, (overpriceState.calculate_open_long a).isSome = true) ∧
      overpriceState.calculate_targeted_long 0 0 none none = .fault .underflow :=
  ⟨fun _ => rfl, by decide⟩

/-- Helper: if `calculate_open_long` is defined everywhere, the final
validation pass never reaches the unwrap panic. -/
theorem final_no_panic (s : State) (target_rate : Nat) (checkpoint_exposure : Int)
    (allowable_error x : Nat)
    (hol : ∀ a, (s.calculate_open_long a).isSome = true) :
    s.targeted_long_final target_rate checkpoint_exposure allowable_error x ≠ .panicked := by
  unfold State.targeted_long_final
  cases h : s.calculate_open_long x with
  | none => exact absurd (h ▸ hol x) (by simp)
  | some bond =>
    simp only
    split
    · simp
    · cases hr : s.rate_after_long x (some bond) with
      | err e => simp
      | fault f => simp
      | ok rr =>
        simp only
        split
        · simp
        · split <;> simp

/-- Helper: if `calculate_open_long` is defined everywhere, the Newton loop
never reaches the unwrap panic. -/
theorem loop_no_panic (s : State) (target_rate : Nat) (checkpoint_exposure : Int)
    (allowable_error : Nat)
    (hol : ∀ a, (s.calculate_open_long a).isSome = true) :
    ∀ n x,
      s.targeted_long_loop target_rate checkpoint_exposure allowable_error n x ≠ .panicked := by
  intro n
  induction n with
  | zero =>
    intro x
    exact final_no_panic s target_rate checkpoint_exposure allowable_error x hol
  | succ n ih =>
    intro x
    unfold State.targeted_long_loop
    cases h : s.calculate_open_long x with
    | none => exact absurd (h ▸ hol x) (by simp)
    | some bond =>
      simp only
      cases hr : s.rate_after_long x (some bond) with
      | err e => simp
      | fault f => simp
      | ok rr =>
        simp only
        split
        · simp
        · split
          · simp
          · cases hd : s.rate_after_long_derivative_negation x bond with
            | err e => simp
            | fault f => simp
            | ok d =>
              dsimp only
              split
              · simp
              · exact ih _

/-- C4 (amended): both entry points terminate with an `ok` value, a typed
error, or an abort, and never convert an abort into a typed error; the
unwrap of `calculate_open_long` aborts exactly when that primitive is
infeasible at an invoked candidate, so on every input on which
`calculate_open_long` is defined at each candidate where it is invoked the
unwrap panic is unreachable — any remaining abnormal termination is a
fatal fixed-point arithmetic fault, surfaced as the spec mandates. -/
theorem targeted_long_no_panic (s : State) (budget target_rate : Nat)
    (checkpoint_exposure : Int) (maybe_max_iterations maybe_allowable_error : Option Nat)
    (hol : ∀ a, (s.calculate_open_long a).isSome = true) :
    s.calculate_targeted_long target_rate checkpoint_exposure maybe_max_iterations
        maybe_allowable_error ≠ .panicked ∧
      s.calculate_targeted_long_with_budget budget target_rate checkpoint_exposure
        maybe_max_iterations maybe_allowable_error ≠ .panicked := by
  have hmain :
      s.calculate_targeted_long target_rate checkpoint_exposure maybe_max_iterations
        maybe_allowable_error ≠ .panicked := by
    unfold State.calculate_targeted_long
    simp only
    cases hest : s.targeted_long_estimate target_rate with
    | error f => simp
    | ok target_deltas =>
      dsimp only
      cases hr : s.rate_after_long target_deltas.1 (some target_deltas.2) with
      | err e => simp
      | fault f => simp
      | ok rr =>
        dsimp only
        split
        · simp
        · split
          · simp
          · exact loop_no_panic s target_rate checkpoint_exposure
              (maybe_allowable_error.getD (10 ^ 14)) hol (maybe_max_iterations.getD 7)
              target_deltas.1
  refine ⟨hmain, ?_⟩
  unfold State.calculate_targeted_long_with_budget
  cases hm : s.calculate_targeted_long target_rate checkpoint_exposure maybe_max_iterations
      maybe_allowable_error with
  | ok v => simp
  | err e => simp
  | fault f => simp
  | panicked => exact absurd hm hmain

/-- C4 witness: on `okState` the external open-long primitive is defined
everywhere, and neither entry point reaches the unwrap panic. -/
theorem targeted_long_no_panic_witness :
    okState.calculate_targeted_long 0 0 none none ≠ .panicked ∧
      okState.calculate_targeted_long_with_budget 5 0 0 none none ≠ .panicked :=
  targeted_long_no_panic okState 5 0 0 none none (fun _ => rfl)

/-- C5: if the one-shot estimate (reserve targets followed by the
trade-delta translation) is defined with deltas `target_deltas`, its rate
after trade is defined and does not overshoot the target, its rate error is
strictly below the allowable error, and its solvency check is defined,
then the solver returns exactly the estimated base delta — for every
iteration budget, i.e. without executing any Newton iteration. -/
theorem targeted_long_shortcut (s : State) (target_rate : Nat) (checkpoint_exposure : Int)
    (maybe_allowable_error : Option Nat) (target_deltas : Nat × Nat) (rr : Nat)
    (hest : s.targeted_long_estimate target_rate = .ok target_deltas)
    (hr : s.rate_after_long target_deltas.1 (some target_deltas.2) = .ok rr)
    (hle : target_rate ≤ rr)
    (herr : rr - target_rate < maybe_allowable_error.getD (10 ^ 14))
    (hsv : (s.solvency_after_long target_deltas.1 target_deltas.2
      checkpoint_exposure).isSome = true) :
    ∀ maybe_max_iterations,
      s.calculate_targeted_long target_rate checkpoint_exposure maybe_max_iterations
        maybe_allowable_error = .ok target_deltas.1 := by
  intro maybe_max_iterations
  unfold State.calculate_targeted_long
  simp only [hest, hr]
  rw [if_neg (by omega), if_pos ⟨hsv, herr⟩]

/-- C5 witness: on `okState` with target rate `0` the one-shot estimate is
`(0, 0)`, solvent and exact, and the solver returns its base delta for the
default iteration budget. -/
theorem targeted_long_shortcut_witness :
    okState.calculate_targeted_long 0 0 none none = .ok 0 :=
  targeted_long_shortcut okState 0 0 none (0, 0) 0 rfl rfl (by decide) (by decide) rfl none

/-- C7: in a non-converged Newton iteration (rate defined and not
overshooting, convergence check failed, negated derivative defined), the
next candidate is the current one plus loss divided by the negated
derivative, where loss is the resulting rate minus the target rate —
whenever that checked division is defined; when the negated derivative is
zero the iteration aborts with the fatal division-by-zero fault instead of
producing a next candidate.  Moreover the negated derivative produced by
`rate_after_long_derivative_negation` is the price derivative divided by
(duration times the squared price after the long) — the negation of the
negative analytic rate derivative. -/
theorem newton_update_step (s : State) (target_rate : Nat) (checkpoint_exposure : Int)
    (allowable_error n x bond rr d : Nat)
    (hol : s.calculate_open_long x = some bond)
    (hr : s.rate_after_long x (some bond) = .ok rr)
    (hle : target_rate ≤ rr)
    (hnc : ¬((s.solvency_after_long x bond checkpoint_exposure).isSome = true ∧
      rr - target_rate < allowable_error))
    (hd : s.rate_after_long_derivative_negation x bond = .ok d) :
    (∀ newton_step, fpDiv (rr - target_rate) d = .ok newton_step →
        s.targeted_long_loop target_rate checkpoint_exposure allowable_error (n + 1) x =
          s.targeted_long_loop target_rate checkpoint_exposure allowable_error n
            (x + newton_step)) ∧
      (∀ f, fpDiv (rr - target_rate) d = .error f →
        s.targeted_long_loop target_rate checkpoint_exposure allowable_error (n + 1) x =
          .fault f) ∧
      ∃ p pd, s.calculate_spot_price_after_long x (some bond) = .ok p ∧
        s.price_after_long_derivative x bond = .ok pd ∧
        fpDiv pd (fpMul (fpMul s.annualized_position_duration p) p) = .ok d := by
  refine ⟨?_, ?_, ?_⟩
  · intro newton_step hstep
    conv_lhs => unfold State.targeted_long_loop
    simp only [hol, hr]
    rw [if_neg (by omega), if_neg hnc]
    simp only [hd, hstep]
  · intro f hstep
    conv_lhs => unfold State.targeted_long_loop
    simp only [hol, hr]
    rw [if_neg (by omega), if_neg hnc]
    simp only [hd, hstep]
  · unfold State.rate_after_long_derivative_negation at hd
    cases hp : s.calculate_spot_price_after_long x (some bond) with
    | error msg => rw [hp] at hd; exact absurd hd (by simp)
    | ok p =>
      rw [hp] at hd
      simp only at hd
      cases hpd : s.price_after_long_derivative x bond with
      | err e => rw [hpd] at hd; exact absurd hd (by simp)
      | fault f => rw [hpd] at hd; exact absurd hd (by simp)
      | ok pd =>
        rw [hpd] at hd
        simp only at hd
        cases hq : fpDiv pd (fpMul (fpMul s.annualized_position_duration p) p) with
        | error f => rw [hq] at hd; exact absurd hd (by simp)
        | ok q =>
          rw [hq] at hd
          simp only at hd
          injection hd with hd
          exact ⟨p, pd, rfl, rfl, by rw [hq, hd]⟩

/-- C7 witness: on `newtonState` the iteration at candidate `0` is
non-converged (the solvency check is undefined), every checked operation is
defined and non-degenerate (rate `1`, price derivative `2`, negated rate
derivative `8` at the fixed-point scale), and the loop takes one Newton
step of `1 / 8`. -/
theorem newton_update_step_witness :
    newtonState.targeted_long_loop 0 0 (10 ^ 14) 1 0 =
        newtonState.targeted_long_loop 0 0 (10 ^ 14) 0 (0 + 125000000000000000) ∧
      ∃ p pd, newtonState.calculate_spot_price_after_long 0 (some 0) = .ok p ∧
        newtonState.price_after_long_derivative 0 0 = .ok pd ∧
        fpDiv pd (fpMul (fpMul newtonState.annualized_position_duration p) p) =
          .ok (8 * 10 ^ 18) :=
  ⟨(newton_update_step newtonState 0 0 (10 ^ 14) 0 0 0 fpOne (8 * 10 ^ 18) rfl (by decide)
      (by decide) (by decide) (by decide)).1 125000000000000000 (by rfl),
    (newton_update_step newtonState 0 0 (10 ^ 14) 0 0 0 fpOne (8 * 10 ^ 18) rfl (by decide)
      (by decide) (by decide) (by decide)).2.2⟩

/-- Helper: the instrumented final validation pass computes the same
outcome as the plain one. -/
theorem targeted_long_final_trace_fst (s : State) (target_rate : Nat)
    (checkpoint_exposure : Int) (allowable_error x : Nat) :
    (s.targeted_long_final_trace target_rate checkpoint_exposure allowable_error x).1 =
      s.targeted_long_final target_rate checkpoint_exposure allowable_error x := by
  unfold State.targeted_long_final_trace State.targeted_long_final
  repeat' first | split | dsimp only

/-- Helper: the final validation pass evaluates at most one rate, and every
rate it evaluates is at least the target rate unless it returns the
overshoot error; a rate strictly below the target forces the overshoot
error. -/
theorem targeted_long_final_trace_spec (s : State) (target_rate : Nat)
    (checkpoint_exposure : Int) (allowable_error x : Nat) :
    (s.targeted_long_final_trace target_rate checkpoint_exposure allowable_error x).2.length
        ≤ 1 ∧
      ∀ r ∈ (s.targeted_long_final_trace target_rate checkpoint_exposure allowable_error x).2,
        (target_rate ≤ r ∨
          (s.targeted_long_final_trace target_rate checkpoint_exposure allowable_error x).1 =
            .err .overshoot) ∧
        (r < target_rate →
          (s.targeted_long_final_trace target_rate checkpoint_exposure allowable_error x).1 =
            .err .overshoot) := by
  unfold State.targeted_long_final_trace
  repeat' first | split | dsimp only
  all_goals simp_all

/-- Helper: the instrumented Newton loop computes the same outcome as the
plain one. -/
theorem targeted_long_loop_trace_fst (s : State) (target_rate : Nat)
    (checkpoint_exposure : Int) (allowable_error : Nat) :
    ∀ n x,
      (s.targeted_long_loop_trace target_rate checkpoint_exposure allowable_error n x).1 =
        s.targeted_long_loop target_rate checkpoint_exposure allowable_error n x := by
  intro n
  induction n with
  | zero =>
    intro x
    unfold State.targeted_long_loop_trace State.targeted_long_loop
      State.targeted_long_final_trace State.targeted_long_final
    repeat' first | split | dsimp only
  | succ n ih =>
    intro x
    unfold State.targeted_long_loop_trace State.targeted_long_loop
    repeat' first | split | dsimp only
    all_goals first | rfl | exact ih _

/-- Helper: a loop with fuel `n` evaluates at most `n + 1` rates (at most
`n` in iterations plus at most one in the final validation pass), every
rate it evaluates is at least the target rate unless it returns the
overshoot error, and a rate strictly below the target forces the overshoot
error. -/
theorem targeted_long_loop_trace_spec (s : State) (target_rate : Nat)
    (checkpoint_exposure : Int) (allowable_error : Nat) :
    ∀ n x,
      (s.targeted_long_loop_trace target_rate checkpoint_exposure allowable_error n x).2.length
          ≤ n + 1 ∧
        ∀ r ∈ (s.targeted_long_loop_trace target_rate checkpoint_exposure allowable_error
            n x).2,
          (target_rate ≤ r ∨
            (s.targeted_long_loop_trace target_rate checkpoint_exposure allowable_error
              n x).1 = .err .overshoot) ∧
          (r < target_rate →
            (s.targeted_long_loop_trace target_rate checkpoint_exposure allowable_error
              n x).1 = .err .overshoot) := by
  intro n
  induction n with
  | zero =>
    intro x
    exact targeted_long_final_trace_spec s target_rate checkpoint_exposure allowable_error x
  | succ n ih =>
    intro x
    unfold State.targeted_long_loop_trace
    repeat' first | split | dsimp only
    all_goals simp_all
    exact fun r hr hlt => ((ih _).2 r hr).2 hlt

/-- Helper: the instrumented solver computes the same outcome as the plain
one. -/
theorem calculate_targeted_long_trace_fst (s : State) (target_rate : Nat)
    (checkpoint_exposure : Int) (maybe_max_iterations maybe_allowable_error : Option Nat) :
    (s.calculate_targeted_long_trace target_rate checkpoint_exposure maybe_max_iterations
        maybe_allowable_error).1 =
      s.calculate_targeted_long target_rate checkpoint_exposure maybe_max_iterations
        maybe_allowable_error := by
  unfold State.calculate_targeted_long_trace State.calculate_targeted_long
  repeat' first | split | dsimp only
  all_goals first
    | rfl
    | exact targeted_long_loop_trace_fst s target_rate checkpoint_exposure _ _ _

/-- Helper: the solver evaluates at most `max_iterations + 2` rates, every
rate it evaluates is at least the target rate unless it returns the
overshoot error, and a rate strictly below the target forces the overshoot
error. -/
theorem calculate_targeted_long_trace_spec (s : State) (target_rate : Nat)
    (checkpoint_exposure : Int) (maybe_max_iterations maybe_allowable_error : Option Nat) :
    (s.calculate_targeted_long_trace target_rate checkpoint_exposure maybe_max_iterations
          maybe_allowable_error).2.length ≤ maybe_max_iterations.getD 7 + 2 ∧
      ∀ r ∈ (s.calculate_targeted_long_trace target_rate checkpoint_exposure
          maybe_max_iterations maybe_allowable_error).2,
        (target_rate ≤ r ∨
          (s.calculate_targeted_long_trace target_rate checkpoint_exposure
            maybe_max_iterations maybe_allowable_error).1 = .err .overshoot) ∧
        (r < target_rate →
          (s.calculate_targeted_long_trace target_rate checkpoint_exposure
            maybe_max_iterations maybe_allowable_error).1 = .err .overshoot) := by
  unfold State.calculate_targeted_long_trace
  generalize Option.getD maybe_allowable_error (10 ^ 14) = ae
  generalize Option.getD maybe_max_iterations 7 = mi
  repeat' first | split | dsimp only
  all_goals simp_all
  rename Nat × Nat => td
  have h := targeted_long_loop_trace_spec s target_rate checkpoint_exposure ae mi td.1
  constructor
  · have h1 := h.1
    omega
  · exact fun r hr => h.2 r hr

/-- C2: the instrumented solver agrees with the solver; on any run that
returns a value, every evaluated rate-after-trade (the one-shot estimate's,
each Newton iterate's, and the post-loop final candidate's) is at least the
target rate; and whenever some evaluated rate is strictly below the target
rate, the run returns the overshoot error — never a numeric value. -/
theorem targeted_long_no_overshoot (s : State) (target_rate : Nat) (checkpoint_exposure : Int)
    (maybe_max_iterations maybe_allowable_error : Option Nat) :
    (s.calculate_targeted_long_trace target_rate checkpoint_exposure maybe_max_iterations
          maybe_allowable_error).1 =
        s.calculate_targeted_long target_rate checkpoint_exposure maybe_max_iterations
          maybe_allowable_error ∧
      (∀ v, (s.calculate_targeted_long_trace target_rate checkpoint_exposure
          maybe_max_iterations maybe_allowable_error).1 = .ok v →
        ∀ r ∈ (s.calculate_targeted_long_trace target_rate checkpoint_exposure
          maybe_max_iterations maybe_allowable_error).2, target_rate ≤ r) ∧
      ((∃ r ∈ (s.calculate_targeted_long_trace target_rate checkpoint_exposure
          maybe_max_iterations maybe_allowable_error).2, r < target_rate) →
        (s.calculate_targeted_long_trace target_rate checkpoint_exposure
          maybe_max_iterations maybe_allowable_error).1 = .err .overshoot) := by
  refine ⟨calculate_targeted_long_trace_fst s target_rate checkpoint_exposure
    maybe_max_iterations maybe_allowable_error, ?_, ?_⟩
  · intro v hv r hr
    rcases ((calculate_targeted_long_trace_spec s target_rate checkpoint_exposure
        maybe_max_iterations maybe_allowable_error).2 r hr).1 with h | h
    · exact h
    · rw [hv] at h
      cases h
  · rintro ⟨r, hr, hlt⟩
    exact ((calculate_targeted_long_trace_spec s target_rate checkpoint_exposure
      maybe_max_iterations maybe_allowable_error).2 r hr).2 hlt

/-- C2 witness: on `okState` with target rate `1` the one-shot estimate's
rate `0` is strictly below the target, and the solver returns the
overshoot error. -/
theorem targeted_long_no_overshoot_witness :
    (okState.calculate_targeted_long_trace 1 0 none none).1 = .err .overshoot :=
  (targeted_long_no_overshoot okState 1 0 none none).2.2 ⟨0, by decide, by decide⟩

/-- C6: the solver evaluates at most `max_iterations` Newton iterates
(plus the initial estimate and the final candidate, hence at most
`max_iterations + 2` rate evaluations in total, with the cap
caller-overridable and defaulting to 7); an exhausted iteration budget
falls through to the final validation pass instead of failing; and the
final validation pass returns, in order, the insolvent error when the
solvency check is undefined, the propagated rate failure (a typed error or
a fatal fault), the overshoot error when the final rate is below the
target, the excessive-loss error when the final loss is at least the
allowable error, and otherwise the last candidate. -/
theorem targeted_long_cap_and_final_validation (s : State) (target_rate : Nat)
    (checkpoint_exposure : Int) (maybe_max_iterations maybe_allowable_error : Option Nat)
    (allowable_error x bond : Nat)
    (hol : s.calculate_open_long x = some bond) :
    (s.calculate_targeted_long_trace target_rate checkpoint_exposure maybe_max_iterations
          maybe_allowable_error).2.length ≤ maybe_max_iterations.getD 7 + 2 ∧
      s.targeted_long_loop target_rate checkpoint_exposure allowable_error 0 x =
        s.targeted_long_final target_rate checkpoint_exposure allowable_error x ∧
      (s.solvency_after_long x bond checkpoint_exposure = none →
        s.targeted_long_final target_rate checkpoint_exposure allowable_error x =
          .err .insolvent) ∧
      ∀ sol, s.solvency_after_long x bond checkpoint_exposure = some sol →
        (∀ e, s.rate_after_long x (some bond) = .err e →
          s.targeted_long_final target_rate checkpoint_exposure allowable_error x =
            .err e) ∧
        (∀ f, s.rate_after_long x (some bond) = .fault f →
          s.targeted_long_final target_rate checkpoint_exposure allowable_error x =
            .fault f) ∧
        ∀ rr, s.rate_after_long x (some bond) = .ok rr →
          (rr < target_rate →
            s.targeted_long_final target_rate checkpoint_exposure allowable_error x =
              .err .overshoot) ∧
          (target_rate ≤ rr →
            (allowable_error ≤ rr - target_rate →
              s.targeted_long_final target_rate checkpoint_exposure allowable_error x =
                .err (.excessiveLoss (rr - target_rate))) ∧
            (rr - target_rate < allowable_error →
              s.targeted_long_final target_rate checkpoint_exposure allowable_error x =
                .ok x)) := by
  refine ⟨(calculate_targeted_long_trace_spec s target_rate checkpoint_exposure
    maybe_max_iterations maybe_allowable_error).1, rfl, ?_, ?_⟩
  · intro hsv
    unfold State.targeted_long_final
    simp [hol, hsv]
  · intro sol hsv
    refine ⟨?_, ?_, ?_⟩
    · intro e hre
      unfold State.targeted_long_final
      simp [hol, hsv, hre]
    · intro f hrf
      unfold State.targeted_long_final
      simp [hol, hsv, hrf]
    · intro rr hrr
      constructor
      · intro hlt
        unfold State.targeted_long_final
        simp only [hol, hsv]
        rw [if_neg (by simp), hrr]
        simp only
        rw [if_pos hlt]
      · intro hge
        constructor
        · intro hloss
          unfold State.targeted_long_final
          simp only [hol, hsv]
          rw [if_neg (by simp), hrr]
          simp only
          rw [if_neg (by omega), if_pos hloss]
        · intro hloss
          unfold State.targeted_long_final
          simp only [hol, hsv]
          rw [if_neg (by simp), hrr]
          simp only
          rw [if_neg (by omega), if_neg (by omega)]

/-- C6 witness: on `newtonState` at candidate `0` the open-long primitive
returns a bond amount but the solvency check is undefined, so the final
validation pass returns the insolvent error; and the trace of a default
run evaluates at most 9 rates. -/
theorem targeted_long_cap_and_final_validation_witness :
    (newtonState.calculate_targeted_long_trace 0 0 none none).2.length ≤
        (none : Option Nat).getD 7 + 2 ∧
      newtonState.targeted_long_final 0 0 (10 ^ 14) 0 = .err .insolvent :=
  ⟨(targeted_long_cap_and_final_validation newtonState 0 0 none none (10 ^ 14) 0 0 rfl).1,
    (targeted_long_cap_and_final_validation newtonState 0 0 none none
      (10 ^ 14) 0 0 rfl).2.2.1 rfl⟩

end Hyperdrive
